import Mathlib

/-!
Verification of the correlation-based culprit identification engine of the
`gwas_tools` repository (`algorithms/scattered_light_raw.py`,
`utils/file_utils.py`) against its natural-language specification.

The Python code is shallowly embedded: dictionaries become structures with
optional fields, numeric values become rationals (`ℚ`), Python integers become
`ℤ`, exceptions become `Except` values, and the external collaborators of the
engine (the `signal_utils` module, which is not part of the analysed sources)
become fields of an explicit environment record.
-/

set_option linter.unusedVariables false

/-- Dynamically typed Python value, as far as this codebase needs it. -/
inductive PyVal where
  | int (n : ℤ)
  | rat (q : ℚ)
  | str (s : String)
deriving DecidableEq, Repr

/-- Python exceptions that the embedded code can raise.
`value_not_found` is the `ValueError("Value not found.")` raised by the
`YmlFile` accessors; `type_error` is a `TypeError` (e.g. a call with the wrong
number of positional arguments); `uncaught` is any other exception that
propagates out of the code unlabelled (IndexError, AttributeError, the
`ValueError` of a failed `int(...)` conversion, `np.max` on an empty array). -/
inductive PyErr where
  | value_not_found
  | type_error
  | uncaught (msg : String)
deriving DecidableEq, Repr

/-- Value of a decimal digit character, `none` for any other character. -/
def digitVal? (c : Char) : Option ℕ :=
  if '0' ≤ c ∧ c ≤ '9' then some (c.toNat - '0'.toNat) else none

/-- Decimal reading of a character list, failing on any non-digit. -/
def natOfDigits? : List Char → ℕ → Option ℕ
  | [], acc => some acc
  | c :: cs, acc =>
    match digitVal? c with
    | some d => natOfDigits? cs (acc * 10 + d)
    | none => none

/-- Model of the Python builtin `int(s)` on a string: an optional minus sign
followed by decimal digits (Python additionally accepts surrounding
whitespace and a leading `+`, which never occur here). -/
def pyInt? (s : String) : Option ℤ :=
  match s.data with
  | [] => none
  | '-' :: cs => if cs.isEmpty then none else (natOfDigits? cs 0).map (fun n => -(n : ℤ))
  | cs => (natOfDigits? cs 0).map (fun n => (n : ℤ))

/-- Model of the Python builtin `s.split(",")`, on the character list of the
string: groups of characters between the commas (always at least one group). -/
def splitComma : List Char → List (List Char)
  | [] => [[]]
  | c :: rest =>
    match splitComma rest with
    | [] => [[]]
    | grp :: gs => if c = ',' then [] :: grp :: gs else (c :: grp) :: gs

/-- Python `s.split(",")` returning strings. -/
def pySplitComma (s : String) : List String :=
  (splitComma s.data).map fun l => ⟨l⟩

/-- Python list indexing `l[i]`: non-negative indices from the front,
negative indices from the back; out of range yields `none` (an IndexError). -/
def pyIndex (l : List α) (i : ℤ) : Option α :=
  if 0 ≤ i then l[i.toNat]?
  else if (-i).toNat ≤ l.length then l[l.length - (-i).toNat]? else none

/-! ### The persisted record (`YmlFile`, file_utils.py lines 28-392)

The yml document `self.content` is a nested dictionary.  The parameter
section's keys (taken from the missing `defines` module, but fixed distinct
names) become the fields of `ParamsSect`; a key absent from the dictionary is
a field equal to `none`.  The gps value is kept dynamically typed (`PyVal`)
because `get_gps` calls `.split` on it outside of any `try`. -/

/-- Parameters section of the record (`defines.PARAMS_SECT_KEY`). -/
structure ParamsSect where
  gps : Option PyVal := none
  target_channel : Option String := none
  channels_list : Option String := none
  out_path : Option String := none
  samp_freq : Option ℚ := none
  lowpass_freq : Option ℚ := none
  scattering : Option ℤ := none
  smooth_win : Option ℤ := none
deriving DecidableEq, Repr

/-- Max-correlation section of the record (`defines.MAX_CORR_SECT_KEY`). -/
structure MaxCorrSect where
  imf : Option ℤ := none
  channel : Option String := none
  corr : Option ℚ := none
  mean_freq : Option ℚ := none
deriving DecidableEq, Repr

/-- One entry of the correlation section, as produced by
`write_correlation_section` (always carries all four keys). -/
structure CorrEntry where
  imf : ℤ
  channel : String
  corr : ℚ
  mean_freq : ℚ
deriving DecidableEq, Repr

/-- The `self.content` dictionary of a `YmlFile`: each top-level section is
present (`some`) or absent (`none`).  A fresh `YmlFile()` has `{}`. -/
structure YmlContent where
  params : Option ParamsSect := none
  max_corr : Option MaxCorrSect := none
  corr : Option (List CorrEntry) := none
  corr_2 : Option (List CorrEntry) := none
deriving DecidableEq, Repr

/-- Content of a fresh `YmlFile()` — the empty dictionary. -/
def YmlFile.empty : YmlContent := {}

/-- file_utils.py line 45: `get_target_channel`. -/
def YmlFile.get_target_channel (c : YmlContent) : Except PyErr String :=
  match c.params >>= (·.target_channel) with
  | some v => .ok v
  | none => .error .value_not_found

/-- Parsing done by `get_gps` outside of its `try` block (lines 73-74):
`int(gps.split(",")[0])`, `int(gps.split(",")[1])`.  Any failing step is an
exception (AttributeError on a non-string, IndexError, int() ValueError)
that propagates uncaught. -/
def YmlFile.parse_gps (v : PyVal) : Except PyErr (ℤ × ℤ) :=
  match v with
  | .str s =>
    let parts := pySplitComma s
    match parts.get? 0 >>= pyInt?, parts.get? 1 >>= pyInt? with
    | some a, some b => .ok (a, b)
    | _, _ => .error (.uncaught "int() or index failure on gps value")
  | _ => .error (.uncaught "AttributeError: no split method")

/-- file_utils.py line 58: `get_gps`.  Only the dictionary lookup is inside
the `try`; the split/parse happens afterwards and may raise other errors. -/
def YmlFile.get_gps (c : YmlContent) : Except PyErr (ℤ × ℤ) :=
  match c.params >>= (·.gps) with
  | none => .error .value_not_found
  | some v => YmlFile.parse_gps v

/-- file_utils.py line 78: `get_sampling_frequency`. -/
def YmlFile.get_sampling_frequency (c : YmlContent) : Except PyErr ℚ :=
  match c.params >>= (·.samp_freq) with
  | some v => .ok v
  | none => .error .value_not_found

/-- file_utils.py line 91: `get_channels_list`. -/
def YmlFile.get_channels_list (c : YmlContent) : Except PyErr String :=
  match c.params >>= (·.channels_list) with
  | some v => .ok v
  | none => .error .value_not_found

/-- file_utils.py line 104: `get_output_path`. -/
def YmlFile.get_output_path (c : YmlContent) : Except PyErr String :=
  match c.params >>= (·.out_path) with
  | some v => .ok v
  | none => .error .value_not_found

/-- file_utils.py line 117: `get_lowpass_frequency`. -/
def YmlFile.get_lowpass_frequency (c : YmlContent) : Except PyErr ℚ :=
  match c.params >>= (·.lowpass_freq) with
  | some v => .ok v
  | none => .error .value_not_found

/-- file_utils.py line 130: `get_scattering_factor`. -/
def YmlFile.get_scattering_factor (c : YmlContent) : Except PyErr ℤ :=
  match c.params >>= (·.scattering) with
  | some v => .ok v
  | none => .error .value_not_found

/-- file_utils.py line 143: `get_smoothing_window`. -/
def YmlFile.get_smoothing_window (c : YmlContent) : Except PyErr ℤ :=
  match c.params >>= (·.smooth_win) with
  | some v => .ok v
  | none => .error .value_not_found

/-- file_utils.py line 156: `get_max_corr_imf`. -/
def YmlFile.get_max_corr_imf (c : YmlContent) : Except PyErr ℤ :=
  match c.max_corr >>= (·.imf) with
  | some v => .ok v
  | none => .error .value_not_found

/-- file_utils.py line 169: `get_max_corr_channel`. -/
def YmlFile.get_max_corr_channel (c : YmlContent) : Except PyErr String :=
  match c.max_corr >>= (·.channel) with
  | some v => .ok v
  | none => .error .value_not_found

/-- file_utils.py line 182: `get_max_corr`. -/
def YmlFile.get_max_corr (c : YmlContent) : Except PyErr ℚ :=
  match c.max_corr >>= (·.corr) with
  | some v => .ok v
  | none => .error .value_not_found

/-- file_utils.py line 195: `get_max_corr_mean_freq`. -/
def YmlFile.get_max_corr_mean_freq (c : YmlContent) : Except PyErr ℚ :=
  match c.max_corr >>= (·.mean_freq) with
  | some v => .ok v
  | none => .error .value_not_found

/-- file_utils.py line 221: `get_channel_of_imf` (Python indexing `[imf - 1]`
inside the `try`, so an out-of-range index also yields the ValueError). -/
def YmlFile.get_channel_of_imf (c : YmlContent) (imf : ℤ) (second_best : Bool := false) :
    Except PyErr String :=
  match (if second_best then c.corr_2 else c.corr) >>= fun l => pyIndex l (imf - 1) with
  | some e => .ok e.channel
  | none => .error .value_not_found

/-- file_utils.py line 245: `get_corr_of_imf`. -/
def YmlFile.get_corr_of_imf (c : YmlContent) (imf : ℤ) (second_best : Bool := false) :
    Except PyErr ℚ :=
  match (if second_best then c.corr_2 else c.corr) >>= fun l => pyIndex l (imf - 1) with
  | some e => .ok e.corr
  | none => .error .value_not_found

/-- file_utils.py line 269: `get_mean_freq_of_imf`. -/
def YmlFile.get_mean_freq_of_imf (c : YmlContent) (imf : ℤ) (second_best : Bool := false) :
    Except PyErr ℚ :=
  match (if second_best then c.corr_2 else c.corr) >>= fun l => pyIndex l (imf - 1) with
  | some e => .ok e.mean_freq
  | none => .error .value_not_found

/-- file_utils.py line 293: `write_parameters` — replaces the parameters
section wholesale.  `float(fs)`, `float(f_lowpass)`, `int(n_scattering)` and
`int(smooth_win)` are identities on the exact `ℚ`/`ℤ` model. -/
def YmlFile.write_parameters (c : YmlContent) (gps : PyVal)
    (target_channel_name channels_file out_path : String)
    (fs f_lowpass : ℚ) (n_scattering smooth_win : ℤ) : YmlContent :=
  { c with params := some {
        gps := some gps,
        target_channel := some target_channel_name,
        channels_list := some channels_file,
        out_path := some out_path,
        samp_freq := some fs,
        lowpass_freq := some f_lowpass,
        scattering := some n_scattering,
        smooth_win := some smooth_win } }

/-- file_utils.py line 326: `write_max_corr_section`. -/
def YmlFile.write_max_corr_section (c : YmlContent) (n_imf : ℤ) (max_ch_str : String)
    (max_corr mean_freq : ℚ) : YmlContent :=
  { c with max_corr := some {
        imf := some n_imf,
        channel := some max_ch_str,
        corr := some max_corr,
        mean_freq := some mean_freq } }

/-- Loop body of `write_correlation_section` (file_utils.py lines 359-362):
for each `i < len(channels)` an entry `{imf: i+1, channel: channels[i],
corr: float(corrs[i]), mean_freq: float(mean_freqs[i])}`; indexing a shorter
`corrs`/`mean_freqs` raises (hence `Option`). -/
def YmlFile.build_corr_entries (channels : List String) (corrs mean_freqs : List ℚ) :
    Option (List CorrEntry) :=
  (List.range channels.length).mapM fun (i : ℕ) => do
    let ch ← channels.get? i
    let co ← corrs.get? i
    let mf ← mean_freqs.get? i
    pure { imf := (i : ℤ) + 1, channel := ch, corr := co, mean_freq := mf }

/-- file_utils.py line 346: `write_correlation_section` — replaces the
correlation section wholesale. -/
def YmlFile.write_correlation_section (c : YmlContent) (channels : List String)
    (corrs mean_freqs : List ℚ) : Except PyErr YmlContent :=
  match YmlFile.build_corr_entries channels corrs mean_freqs with
  | some es => .ok { c with corr := some es }
  | none => .error (.uncaught "IndexError in write_correlation_section")

/-- file_utils.py line 364: `write_2nd_best_correlation_section`. -/
def YmlFile.write_2nd_best_correlation_section (c : YmlContent) (channels : List String)
    (corrs mean_freqs : List ℚ) : Except PyErr YmlContent :=
  match YmlFile.build_corr_entries channels corrs mean_freqs with
  | some es => .ok { c with corr_2 := some es }
  | none => .error (.uncaught "IndexError in write_2nd_best_correlation_section")

/-! ### Result store and aggregation (file_utils.py lines 416-720)

A result folder is abstracted as the relevant view of the filesystem:
whether `output.yml` exists (and its parsed content) and how many `*.imf` /
`*.predictors` sidecar files are present.  Folder paths and the location of
the written csv are not modelled; the produced table rows are. -/

/-- Filesystem view of one result folder. -/
structure FolderFS where
  yml : Option YmlContent := none
  n_imf_files : ℕ := 0
  n_predictor_files : ℕ := 0

/-- file_utils.py line 416: `yml_exists`. -/
def yml_exists (f : FolderFS) : Bool := f.yml.isSome

/-- file_utils.py line 437: `imfs_exists` (exactly one `*.imf` file). -/
def imfs_exists (f : FolderFS) : Bool := f.n_imf_files == 1

/-- file_utils.py line 458: `predictors_exists` (exactly one `*.predictors`). -/
def predictors_exists (f : FolderFS) : Bool := f.n_predictor_files == 1

/-- file_utils.py line 567: `is_valid_folder`. -/
def is_valid_folder (f : FolderFS) : Bool :=
  yml_exists f && imfs_exists f && predictors_exists f

/-- One cell of the comparison table: a channel name, a number, or the
missing-value marker `np.nan`. -/
inductive Cell where
  | nan
  | s (v : String)
  | q (v : ℚ)
deriving DecidableEq, Repr

/-- Model of Python `int(v)` on a dynamically typed value: identity on
integers, truncation toward zero on floats, decimal parse on strings. -/
def pyToInt? (v : PyVal) : Option ℤ :=
  match v with
  | .int n => some n
  | .rat q => some (q.num / (q.den : ℤ))
  | .str s => pyInt? s

/-- The gps column value of a folder (summary_table lines 654-659, 695-700):
start gps, the floor-division midpoint, or end gps.  `event_time` has already
been validated, so the last branch is exactly `event_time = "end"`. -/
def event_gps (event_time : String) (g : ℤ × ℤ) : ℤ :=
  if event_time = "start" then g.1
  else if event_time = "center" then Int.fdiv (g.1 + g.2) 2
  else g.2

/-- The three `append`s of the `try` block of summary_table's max_corr branch
(lines 661-668), with Python exception semantics: the appends made before the
failing accessor survive, and the `except` clause then appends one `np.nan`
to each of the three lists. -/
def try_cells (c : YmlContent) : List Cell × List Cell × List Cell :=
  match YmlFile.get_max_corr_channel c with
  | .error _ => ([.nan], [.nan], [.nan])
  | .ok ch =>
    match YmlFile.get_max_corr c with
    | .error _ => ([.s ch, .nan], [.nan], [.nan])
    | .ok co =>
      match YmlFile.get_max_corr_mean_freq c with
      | .error _ => ([.s ch, .nan], [.q co, .nan], [.nan])
      | .ok mf => ([.s ch], [.q co], [.q mf])

/-- Accumulated columns of the max_corr branch. -/
structure TState where
  gps : List ℤ := []
  culprits : List Cell := []
  corrs : List Cell := []
  m_freqs : List Cell := []

/-- Folder loop of summary_table's max_corr branch (lines 650-668): invalid
folders are skipped; for a valid folder `yf.get_gps()` is called outside of
any `try`, so its failure propagates out of `summary_table`. -/
def max_corr_rows (event_time : String) : List FolderFS → TState → Except PyErr TState
  | [], st => .ok st
  | f :: rest, st =>
    if is_valid_folder f then
      match f.yml with
      | none => max_corr_rows event_time rest st
      | some c =>
        match YmlFile.get_gps c with
        | .error e => .error e
        | .ok g =>
          let cells := try_cells c
          max_corr_rows event_time rest
            { gps := st.gps ++ [event_gps event_time g],
              culprits := st.culprits ++ cells.1,
              corrs := st.corrs ++ cells.2.1,
              m_freqs := st.m_freqs ++ cells.2.2 }
    else max_corr_rows event_time rest st

/-- The three `append`s of the inner `try` of the list branch (lines 703-710),
for one requested index `i`, with the same exception semantics. -/
def try_cells_idx (c : YmlContent) (i : ℤ) : List Cell × List Cell × List Cell :=
  match YmlFile.get_channel_of_imf c i with
  | .error _ => ([.nan], [.nan], [.nan])
  | .ok ch =>
    match YmlFile.get_corr_of_imf c i with
    | .error _ => ([.s ch, .nan], [.nan], [.nan])
    | .ok co =>
      match YmlFile.get_mean_freq_of_imf c i with
      | .error _ => ([.s ch, .nan], [.q co, .nan], [.nan])
      | .ok mf => ([.s ch], [.q co], [.q mf])

/-- The `comparison` argument of summary_table: the literal token
`"max_corr"`, a Python list, or any other value. -/
inductive Comparison where
  | max_corr
  | ilist (items : List PyVal)
  | other
deriving Repr

/-- The table written by summary_table: one row per gps entry.  The max_corr
shape carries a (culprit, corr, mean_freq) triple per row; the list shape one
triple per requested index. -/
inductive STable where
  | max_corr_table (rows : List (ℤ × Cell × Cell × Cell))
  | idx_table (indices : List ℤ) (rows : List (ℤ × List (Cell × Cell × Cell)))
deriving Repr

/-- Rows of the max_corr DataFrame (line 670): `pd.DataFrame` raises a
ValueError when the four columns do not all have the same length. -/
def make_max_corr_table (st : TState) : Except PyErr STable :=
  if st.culprits.length = st.gps.length ∧ st.corrs.length = st.gps.length ∧
      st.m_freqs.length = st.gps.length then
    .ok (.max_corr_table (st.gps.zip (st.culprits.zip (st.corrs.zip st.m_freqs))))
  else .error (.uncaught "pandas ValueError: unequal column lengths")

/-- The gps column of the list branch (lines 691-700); `get_gps` failures
propagate, invalid folders contribute nothing. -/
def idx_gps_col (event_time : String) : List FolderFS → Except PyErr (List ℤ)
  | [] => .ok []
  | f :: rest =>
    if is_valid_folder f then
      match f.yml with
      | none => idx_gps_col event_time rest
      | some c =>
        match YmlFile.get_gps c with
        | .error e => .error e
        | .ok g => (idx_gps_col event_time rest).map fun l => event_gps event_time g :: l
    else idx_gps_col event_time rest

/-- Per-index columns of the list branch (lines 702-710), concatenating each
valid folder's appended cells.  The Python dict keyed by `i` is modelled as a
list over the parsed indices, which coincides when they are distinct (the
keys of a dict). -/
def idx_cols (parsed : List ℤ) (folders : List FolderFS) :
    List (List Cell × List Cell × List Cell) :=
  let valids := (folders.filter is_valid_folder).filterMap (·.yml)
  parsed.map fun i =>
    ((valids.map fun c => (try_cells_idx c i).1).flatten,
     (valids.map fun c => (try_cells_idx c i).2.1).flatten,
     (valids.map fun c => (try_cells_idx c i).2.2).flatten)

/-- Rows of the list-branch DataFrame (lines 712-717), with the same pandas
equal-length requirement over every column. -/
def make_idx_table (parsed : List ℤ) (gps : List ℤ)
    (cols : List (List Cell × List Cell × List Cell)) : Except PyErr STable :=
  if cols.all fun t => t.1.length = gps.length ∧ t.2.1.length = gps.length ∧
      t.2.2.length = gps.length then
    .ok (.idx_table parsed ((List.range gps.length).map fun r =>
      (gps.getD r 0, cols.map fun t => (t.1.getD r .nan, t.2.1.getD r .nan, t.2.2.getD r .nan))))
  else .error (.uncaught "pandas ValueError: unequal column lengths")

/-- file_utils.py line 617: `summary_table`.  Returns `.ok none` for the
early return on an empty folder list (no csv written), `.ok (some t)` with
the written table otherwise.  The output path handling (`comparison`
directory creation, csv naming) is not modelled. -/
def summary_table (folders : List FolderFS) (comparison : Comparison)
    (table_name : String) (event_time : String := "center") :
    Except PyErr (Option STable) :=
  if folders.length = 0 then .ok none
  else if ¬ (event_time = "start" ∨ event_time = "center" ∨ event_time = "end") then
    .error (.uncaught "ValueError: Event time can only be: start, center, end")
  else
    match comparison with
    | .max_corr => do
      let st ← max_corr_rows event_time folders {}
      let t ← make_max_corr_table st
      pure (some t)
    | .ilist items =>
      match items.mapM pyToInt? with
      | none => .error (.uncaught "ValueError: comparison must be max_corr or list of int")
      | some parsed => do
        let gps ← idx_gps_col event_time folders
        let t ← make_idx_table parsed gps (idx_cols parsed folders)
        pure (some t)
    | .other => .error (.uncaught "ValueError: comparison must be max_corr or list of int")

/-! ### The analysis engine (`scattered_light_raw.py`)

The engine's external collaborators — the `signal_utils` module and the
channel-file reader — are not part of the analysed sources; they are fields
of an explicit environment, constrained only by their interface (spec §6).
Filesystem and data-fetch side effects are recorded in an effect trace. -/

/-- Modelled from the spec: `defines.EVENT_LOCATION` (module `common/defines`
is missing from the sources); spec §4.1 fixes the enumerated anchor positions
start, center, end. -/
def EVENT_LOCATION : List String := ["start", "center", "end"]

/-- Modelled from the spec: `defines.LOWP_FREQ_OPTS` (module `common/defines`
is missing from the sources); spec §4.4 fixes the symbolic cutoff policies
average and max. -/
def LOWP_FREQ_OPTS : List String := ["average", "max"]

/-- The `f_lowpass` argument: a numeric frequency (Python int/float) or a
symbolic policy string. -/
inductive FLowpass where
  | num (q : ℚ)
  | str (s : String)
deriving DecidableEq, Repr

/-- Model of `np.mean` on a column (`np.mean` of an empty array is NaN; the
engine only evaluates it on the columns of the predictor matrix). -/
def np_mean (l : List ℚ) : ℚ := l.sum / l.length

/-- Model of `np.max`: the maximum of a nonempty array (`np.max` raises on an
empty array; every call site guards emptiness explicitly). -/
def np_max (l : List ℚ) : ℚ := (l.maximum).unbot' 0

/-- Model of `np.argmax`: the first index attaining the maximum (numpy
documents first-occurrence semantics for ties). -/
def np_argmax (l : List ℚ) : ℕ := l.findIdx fun q => decide (q = np_max l)

/-- Lines 100-105: resolution of a symbolic lowpass cutoff from the predictor
matrix (one inner list per candidate channel): `"average"` takes the maximum
of the per-channel means, `"max"` the maximum of the per-channel maxima; a
numeric cutoff passes through, and any other string is left unresolved (the
two `if`s of the source do not fire).  The error case is `np.max` applied to
an empty sequence. -/
def resolve_f_lowpass (f : FLowpass) (predictor : List (List ℚ)) : Except PyErr FLowpass :=
  match f with
  | .num q => .ok (.num q)
  | .str s =>
    if s = "average" then
      if predictor.isEmpty then .error (.uncaught "np.max of empty sequence")
      else .ok (.num (np_max (predictor.map np_mean)))
    else if s = "max" then
      if predictor.isEmpty || predictor.any (·.isEmpty) then
        .error (.uncaught "np.max of empty sequence")
      else .ok (.num (np_max (predictor.map np_max)))
    else .ok (.str s)

/-- Modelled from the spec: the engine's external collaborators (spec §6).
`get_data_from_gwf_files` returns the channel matrix as a list of columns —
column 0 is the target channel, the rest follow the channel list — together
with the resolved sampling rate.  `get_predictors` takes the candidate
columns, the sampling rate, the smoothing window and the bounce order and
returns one predictor column per candidate.  `get_instrument_lock_data`
returns a sequence of segments, each a sequence of sample values.
`read_channels_file` is the processed content of the channel-list file
(lines 68-69: stripped, blank lines dropped). -/
structure Env where
  read_channels_file : String → List String
  get_gps_interval_extremes : ℤ → ℤ → String → ℤ × ℤ
  get_ifo_of_channel : String → String
  get_lock_channel_name_for_ifo : String → Option String
  get_instrument_lock_data : String → ℤ → ℤ → List (List ℚ)
  get_data_from_gwf_files : String → List String → ℤ → ℤ → ℚ → List (List ℚ) × ℚ
  get_predictors : List (List ℚ) → ℚ → ℤ → ℤ → List (List ℚ)
  butter_lowpass_filter : List ℚ → ℚ → ℚ → List ℚ
  get_correlation_between : List ℚ → List ℚ → ℚ
  mean_frequency : String → ℤ → ℤ → ℚ × ℚ → ℚ

/-- Arguments of `scattered_light_raw` (lines 24-26), with the source's
default values. -/
structure Args where
  gps : ℤ
  seconds : ℤ
  target_channel_name : String
  channels_file : String
  out_path : String
  f_lowpass : FLowpass
  event : String := "center"
  fs : ℚ := 256
  n_scattering : ℤ := 1
  smooth_win : ℤ := 50
  save_data : Bool := true
  check_lock : Bool := false

/-- Observable side effects of one engine run, in order. -/
inductive Effect where
  | open_channels_file (path : String)
  | make_output_dir (dir : String)
  | fetch_lock_data (channel : String) (gs ge : ℤ)
  | fetch_channels (target : String) (channels : List String) (gs ge : ℤ) (fs : ℚ)
  | lowpass_call (cutoff fs : ℚ)
  | mean_freq_call (channel : String) (gs ge : ℤ) (lo hi : ℚ)
  | write_record (dir : String) (content : YmlContent)
  | save_predictors_file (name dir : String)
deriving DecidableEq, Repr

/-- Result of one engine run: a raised ValueError on a bad argument, the
`return None` of a failed lock check, some other uncaught exception, a
TypeError, or normal completion with the record that was persisted. -/
inductive RunResult where
  | invalid_argument (msg : String)
  | none_result
  | runtime_error (msg : String)
  | type_error
  | completed (record : YmlContent)
deriving DecidableEq, Repr

/-- Line 63: the lowpass argument is rejected iff it is a string outside
`defines.LOWP_FREQ_OPTS` (numbers always pass). -/
def invalid_lowpass_arg (f : FLowpass) : Bool :=
  match f with
  | .num _ => false
  | .str s => decide (s ∉ LOWP_FREQ_OPTS)

/-- Outcome of the lock precondition (lines 81-90): continue, `return None`,
or an uncaught exception. -/
inductive LockOutcome where
  | proceed
  | abort
  | error (msg : String)
deriving DecidableEq, Repr

/-- Line 86, instrument L1: `len(ld) != 1 or ld[0][0] != gps_start or
ld[0][-1] != gps_end` aborts with `return None`; with exactly one segment
that is empty, `ld[0][0]` raises an IndexError instead. -/
def l1_lock_outcome (ld : List (List ℚ)) (gps_start gps_end : ℤ) : LockOutcome :=
  if ld.length ≠ 1 then .abort
  else
    let seg := ld.headD []
    match seg.head?, seg.getLast? with
    | some first, some last =>
      if first ≠ (gps_start : ℚ) ∨ last ≠ (gps_end : ℚ) then .abort else .proceed
    | _, _ => .error "IndexError: empty lock segment"

/-- Line 89, instrument V1: `np.all(lock_channel_data == 1)` — every sample of
every segment equals 1 (vacuously true on empty data, as for `np.all`). -/
def v1_lock_outcome (ld : List (List ℚ)) : LockOutcome :=
  if ld.all fun seg => seg.all fun x => x = 1 then .proceed else .abort

/-- Lines 81-90: the lock check.  Returns the fetch effects it performed and
its outcome.  Disabled checks, instruments without a lock channel, and
instruments other than L1/V1 all proceed; in the last case the lock data is
fetched and then ignored. -/
def lock_check_step (env : Env) (A : Args) (ifo : String) (gps_start gps_end : ℤ) :
    List Effect × LockOutcome :=
  if A.check_lock then
    match env.get_lock_channel_name_for_ifo ifo with
    | none => ([], .proceed)
    | some lcn =>
      let ld := env.get_instrument_lock_data lcn gps_start gps_end
      let effs := [Effect.fetch_lock_data lcn gps_start gps_end]
      if ifo = "L1" then (effs, l1_lock_outcome ld gps_start gps_end)
      else if ifo = "V1" then (effs, v1_lock_outcome ld)
      else (effs, .proceed)
  else ([], .proceed)

/-- Lines 68-69: the processed channel list. -/
def channels_list_of (env : Env) (A : Args) : List String :=
  env.read_channels_file A.channels_file

/-- Lines 73-74: the per-run output folder, named after the gps anchor. -/
def out_dir_of (A : Args) : String := A.out_path ++ "/" ++ toString A.gps

/-- Line 78: the resolved window extremes. -/
def extremes_of (env : Env) (A : Args) : ℤ × ℤ :=
  env.get_gps_interval_extremes A.gps A.seconds A.event

/-- Line 79: the instrument identifier of the target channel. -/
def ifo_of (env : Env) (A : Args) : String :=
  env.get_ifo_of_channel A.target_channel_name

/-- Lines 93-95: the fetched channel matrix (columns) and resolved rate. -/
def data_of (env : Env) (A : Args) : List (List ℚ) × ℚ :=
  env.get_data_from_gwf_files A.target_channel_name (channels_list_of env A)
    (extremes_of env A).1 (extremes_of env A).2 A.fs

/-- Line 98: the predictor matrix, from the candidate columns `data[:, 1:]`. -/
def predictor_of (env : Env) (A : Args) : List (List ℚ) :=
  env.get_predictors (data_of env A).1.tail (data_of env A).2 A.smooth_win A.n_scattering

/-- Lines 100-105 applied to this run's inputs. -/
def f_lowpass_resolved_of (env : Env) (A : Args) : Except PyErr FLowpass :=
  resolve_f_lowpass A.f_lowpass (predictor_of env A)

/-- Line 108: the lowpass-filtered target column `data[:, 0]`. -/
def target_channel_of (env : Env) (A : Args) (f_low : ℚ) : List ℚ :=
  env.butter_lowpass_filter ((data_of env A).1.headD []) f_low (data_of env A).2

/-- Lines 111-113: one correlation per predictor column, in channel order. -/
def corrs_of (env : Env) (A : Args) (f_low : ℚ) : List ℚ :=
  (predictor_of env A).map fun p =>
    env.get_correlation_between p (target_channel_of env A f_low)

/-- Line 130: name of the predictors sidecar,
`"_".join(target_channel_name.split(":"))`. -/
def predictors_name (A : Args) : String :=
  String.intercalate "_" (A.target_channel_name.splitOn ":")

/-- The dynamic method call `out_file.write_parameters(args...)`
(file_utils.py line 293): binds exactly the eight positional parameters
`gps, target_channel_name, channels_file, out_path, fs, f_lowpass,
n_scattering, smooth_win` (with the `float`/`int` conversions of the body);
an argument list of any other length — or one whose values the conversions
reject — raises a TypeError. -/
def call_write_parameters (c : YmlContent) (args : List PyVal) : Except PyErr YmlContent :=
  match args with
  | [gps, .str t, .str cf, .str op, .rat fs, .rat fl, .int ns, .int sw] =>
    .ok (YmlFile.write_parameters c gps t cf op fs fl ns sw)
  | _ => .error .type_error

/-- Lines 93-130 of `scattered_light_raw`, after the lock check has passed:
data fetch, predictors, cutoff resolution, target filtering, correlation
scoring, mean frequency of the winner, and the output stage.  `effs` is the
trace accumulated so far.  At line 122 the source passes TEN positional
arguments to `YmlFile.write_parameters` (`gps, seconds, event,
target_channel_name, channels_file, out_path, fs, f_lowpass, n_scattering,
smooth_win`), while the method accepts eight, so the call raises a TypeError;
the code below it (lines 124-130) is kept for completeness but never runs. -/
def scattered_light_raw_loaded (env : Env) (A : Args) (effs : List Effect) :
    RunResult × List Effect :=
  let channels_list := channels_list_of env A
  let gps_start := (extremes_of env A).1
  let gps_end := (extremes_of env A).2
  let dd := data_of env A
  let fs2 := dd.2
  let effs2 := effs ++ [Effect.fetch_channels A.target_channel_name channels_list
    gps_start gps_end A.fs]
  if dd.1.isEmpty then (.runtime_error "IndexError: no data columns", effs2)
  else
    match f_lowpass_resolved_of env A with
    | .error _ => (.runtime_error "np.max of empty sequence", effs2)
    | .ok (.str _) => (.runtime_error "symbolic lowpass reached the filter", effs2)
    | .ok (.num f_low) =>
      let effs3 := effs2 ++ [Effect.lowpass_call f_low fs2]
      let corrs := corrs_of env A f_low
      if corrs.isEmpty then (.runtime_error "np.max of empty sequence", effs3)
      else
        let max_val := np_max corrs
        let max_channel := np_argmax corrs
        if channels_list.length ≤ max_channel then
          (.runtime_error "IndexError: channels_list", effs3)
        else
          let max_ch := channels_list.getD max_channel ""
          let m_freq := env.mean_frequency max_ch gps_start gps_end (3/100, 10)
          let effs4 := effs3 ++ [Effect.mean_freq_call max_ch gps_start gps_end (3/100) 10]
          let wargs : List PyVal := [.int A.gps, .int A.seconds, .str A.event,
            .str A.target_channel_name, .str A.channels_file, .str (out_dir_of A),
            .rat fs2, .rat f_low, .int A.n_scattering, .int A.smooth_win]
          match call_write_parameters YmlFile.empty wargs with
          | .error _ => (.type_error, effs4)
          | .ok c1 =>
            match YmlFile.write_correlation_section c1 [max_ch] [max_val] [m_freq] with
            | .error _ => (.runtime_error "IndexError in write_correlation_section", effs4)
            | .ok c2 =>
              let effs5 := effs4 ++ [Effect.write_record (out_dir_of A) c2]
              if A.save_data then
                (.completed c2, effs5 ++ [Effect.save_predictors_file (predictors_name A)
                  (out_dir_of A)])
              else (.completed c2, effs5)

/-- Lines 68-130 of `scattered_light_raw`: everything after argument
validation — channel-list read, output-folder creation, window resolution,
lock check, then the loaded stage. -/
def scattered_light_raw_checked (env : Env) (A : Args) : RunResult × List Effect :=
  let gps_start := (extremes_of env A).1
  let gps_end := (extremes_of env A).2
  let effs0 := [Effect.open_channels_file A.channels_file,
    Effect.make_output_dir (out_dir_of A)]
  let lock := lock_check_step env A (ifo_of env A) gps_start gps_end
  let effs1 := effs0 ++ lock.1
  match lock.2 with
  | .abort => (.none_result, effs1)
  | .error m => (.runtime_error m, effs1)
  | .proceed => scattered_light_raw_loaded env A effs1

/-- scattered_light_raw.py lines 24-130: the whole engine run.  Lines 61-65
validate the `event` and `f_lowpass` arguments before any side effect. -/
def scattered_light_raw (env : Env) (A : Args) : RunResult × List Effect :=
  if A.event ∉ EVENT_LOCATION then
    (.invalid_argument "Event time can only be: start, center, end", [])
  else if invalid_lowpass_arg A.f_lowpass then
    (.invalid_argument "Lowpass frequency must be a float or one of these strings", [])
  else scattered_light_raw_checked env A

/-! ### Auxiliary predicates and concrete fixtures used by the statements -/

/-- Whether an `Except` value is a success. -/
def isOkE : Except ε α → Bool
  | .ok _ => true
  | .error _ => false

/-- Whether an effect is the channel-data fetch. -/
def Effect.is_fetch_channels : Effect → Bool
  | .fetch_channels .. => true
  | _ => false

/-- Whether an effect is the mean-frequency computation. -/
def Effect.is_mean_freq_call : Effect → Bool
  | .mean_freq_call .. => true
  | _ => false

/-- Whether an effect is the persisting of a record. -/
def Effect.is_write_record : Effect → Bool
  | .write_record .. => true
  | _ => false

/-- The three max-correlation readers of a record succeed together or fail
together — true of every record produced by `write_max_corr_section` (which
writes the whole section at once) and of records lacking the section. -/
def max_corr_section_atomic (c : YmlContent) : Prop :=
  (isOkE (YmlFile.get_max_corr_channel c) = true ∧
    isOkE (YmlFile.get_max_corr c) = true ∧
    isOkE (YmlFile.get_max_corr_mean_freq c) = true) ∨
  (isOkE (YmlFile.get_max_corr_channel c) = false ∧
    isOkE (YmlFile.get_max_corr c) = false ∧
    isOkE (YmlFile.get_max_corr_mean_freq c) = false)

/-- A folder whose record the aggregator can read without an uncaught
exception: if it is valid, its yml has a parseable gps field and an
all-or-nothing max-correlation section. -/
def folder_readable (f : FolderFS) : Prop :=
  ∀ c, f.yml = some c → is_valid_folder f = true →
    isOkE (YmlFile.get_gps c) = true ∧ max_corr_section_atomic c

/-- The table row the max_corr branch produces for one valid folder: the
event gps plus either the record's (channel, correlation, mean frequency)
triple or the three `np.nan` markers when the section is unreadable. -/
def max_corr_row (event_time : String) (c : YmlContent) : ℤ × Cell × Cell × Cell :=
  (event_gps event_time ((YmlFile.get_gps c).toOption.getD (0, 0)),
    match YmlFile.get_max_corr_channel c, YmlFile.get_max_corr c,
        YmlFile.get_max_corr_mean_freq c with
    | .ok ch, .ok co, .ok mf => (.s ch, .q co, .q mf)
    | _, _, _ => (.nan, .nan, .nan))

/-- A record with both sections complete, as the writers produce. -/
def goodContent : YmlContent :=
  { params := some { gps := some (.str "1000,1010") },
    max_corr := some {
        imf := some 1,
        channel := some "chB",
        corr := some (87/100),
        mean_freq := some 2 } }

/-- A record whose max-correlation section was never written. -/
def noSectContent : YmlContent :=
  { params := some { gps := some (.str "1000,1010") } }

/-- A valid result folder (record plus both sidecars). -/
def goodFolder : FolderFS :=
  { yml := some goodContent, n_imf_files := 1, n_predictor_files := 1 }

/-- An invalid result folder: the `.predictors` sidecar is missing. -/
def badFolder : FolderFS :=
  { yml := some goodContent, n_imf_files := 1, n_predictor_files := 0 }

/-- A valid folder whose record lacks the max-correlation section. -/
def noSectFolder : FolderFS :=
  { yml := some noSectContent, n_imf_files := 1, n_predictor_files := 1 }

/-- A record whose sections are present but hold none of the read fields. -/
def bareSections : YmlContent :=
  { params := some {}, max_corr := some {}, corr := some [] }

/-- The record produced by writing the parameters and then one correlation
entry, used to exhibit the round-trip on concrete values. -/
def rtContent : YmlContent :=
  { params := some {
        gps := some (.str "1000,1010"),
        target_channel := some "T",
        channels_list := some "CF",
        out_path := some "OP",
        samp_freq := some 256,
        lowpass_freq := some 4,
        scattering := some 1,
        smooth_win := some 50 },
    corr := some [{ imf := 1, channel := "chB", corr := 87/100, mean_freq := 2 }] }

/-- A small concrete environment for exercising the engine: two candidate
channels whose predictors are their data columns, correlation = first sample
of the predictor, so channel order and scores are fully explicit. -/
def testEnv : Env :=
  { read_channels_file := fun _ => ["chA", "chB"],
    get_gps_interval_extremes := fun g s _ => (g - s, g),
    get_ifo_of_channel := fun ch =>
      if ch = "L1:TEST" then "L1" else if ch = "V1:TEST" then "V1" else "H1",
    get_lock_channel_name_for_ifo := fun ifo => some ("LCK:" ++ ifo),
    get_instrument_lock_data := fun _ gs ge => [[(gs : ℚ), (ge : ℚ)]],
    get_data_from_gwf_files := fun _ _ _ _ fs => ([[1, 2], [3, 4], [5, 6]], fs),
    get_predictors := fun cols _ _ _ => cols,
    butter_lowpass_filter := fun col _ _ => col,
    get_correlation_between := fun p _ => p.headD 0,
    mean_frequency := fun _ _ _ _ => 5 }

/-- Concrete arguments: a 10-second window ending at gps 100 on an L1 target. -/
def testArgs : Args :=
  { gps := 100, seconds := 10, target_channel_name := "L1:TEST",
    channels_file := "chlist.txt", out_path := "out", f_lowpass := .num 4 }

/-! ### Helper lemmas -/

theorem mapM_option_eq_map {α β : Type} (f : α → Option β) (g : α → β) (l : List α)
    (h : ∀ a ∈ l, f a = some (g a)) : l.mapM f = some (l.map g) := by
  induction l with
  | nil => rfl
  | cons x xs ih =>
    simp only [List.mapM_cons, h x (List.mem_cons_self x xs),
      ih fun a ha => h a (List.mem_cons_of_mem _ ha), List.map_cons]
    rfl

theorem pyIndex_nil {α : Type} (i : ℤ) : pyIndex ([] : List α) i = none := by
  unfold pyIndex
  split <;> simp

theorem pyIndex_ofNat {α : Type} (l : List α) (i : ℕ) : pyIndex l (i : ℤ) = l[i]? := by
  unfold pyIndex
  simp

theorem build_corr_entries_eq (chs : List String) (crs mfs : List ℚ)
    (hc : chs.length ≤ crs.length) (hm : chs.length ≤ mfs.length) :
    YmlFile.build_corr_entries chs crs mfs =
      some ((List.range chs.length).map fun i =>
        { imf := (i : ℤ) + 1, channel := chs.getD i "", corr := crs.getD i 0,
          mean_freq := mfs.getD i 0 }) := by
  apply mapM_option_eq_map
  intro i hi
  rw [List.mem_range] at hi
  have e1 : chs[i]? = some (chs.getD i "") := by
    rw [List.getD_eq_getElem?_getD, List.getElem?_eq_getElem hi]
    rfl
  have e2 : crs[i]? = some (crs.getD i 0) := by
    have h : i < crs.length := lt_of_lt_of_le hi hc
    rw [List.getD_eq_getElem?_getD, List.getElem?_eq_getElem h]
    rfl
  have e3 : mfs[i]? = some (mfs.getD i 0) := by
    have h : i < mfs.length := lt_of_lt_of_le hi hm
    rw [List.getD_eq_getElem?_getD, List.getElem?_eq_getElem h]
    rfl
  simp only [List.get?_eq_getElem?]
  rw [e1, e2, e3]
  rfl

/-! ### Claim C8 — readers fail on missing fields/sections -/

/-- C8: every YmlFile read accessor — target channel, gps bounds, sampling
frequency, channels list, output path, lowpass frequency, scattering factor,
smoothing window, the four max-correlation accessors and the three per-index
result accessors — raises the ValueNotFound-style `ValueError` (rather than
returning a default) when the requested field or section is absent: on the
empty record, and also on a record whose sections are present but hold no
fields (and whose correlation list has no entries). -/
theorem spec_c8_reads_fail_on_missing :
    (YmlFile.get_target_channel YmlFile.empty = .error .value_not_found ∧
     YmlFile.get_gps YmlFile.empty = .error .value_not_found ∧
     YmlFile.get_sampling_frequency YmlFile.empty = .error .value_not_found ∧
     YmlFile.get_channels_list YmlFile.empty = .error .value_not_found ∧
     YmlFile.get_output_path YmlFile.empty = .error .value_not_found ∧
     YmlFile.get_lowpass_frequency YmlFile.empty = .error .value_not_found ∧
     YmlFile.get_scattering_factor YmlFile.empty = .error .value_not_found ∧
     YmlFile.get_smoothing_window YmlFile.empty = .error .value_not_found ∧
     YmlFile.get_max_corr_imf YmlFile.empty = .error .value_not_found ∧
     YmlFile.get_max_corr_channel YmlFile.empty = .error .value_not_found ∧
     YmlFile.get_max_corr YmlFile.empty = .error .value_not_found ∧
     YmlFile.get_max_corr_mean_freq YmlFile.empty = .error .value_not_found) ∧
    (∀ (i : ℤ) (b : Bool),
      YmlFile.get_channel_of_imf YmlFile.empty i b = .error .value_not_found ∧
      YmlFile.get_corr_of_imf YmlFile.empty i b = .error .value_not_found ∧
      YmlFile.get_mean_freq_of_imf YmlFile.empty i b = .error .value_not_found) ∧
    (YmlFile.get_target_channel bareSections = .error .value_not_found ∧
     YmlFile.get_gps bareSections = .error .value_not_found ∧
     YmlFile.get_sampling_frequency bareSections = .error .value_not_found ∧
     YmlFile.get_channels_list bareSections = .error .value_not_found ∧
     YmlFile.get_output_path bareSections = .error .value_not_found ∧
     YmlFile.get_lowpass_frequency bareSections = .error .value_not_found ∧
     YmlFile.get_scattering_factor bareSections = .error .value_not_found ∧
     YmlFile.get_smoothing_window bareSections = .error .value_not_found ∧
     YmlFile.get_max_corr_imf bareSections = .error .value_not_found ∧
     YmlFile.get_max_corr_channel bareSections = .error .value_not_found ∧
     YmlFile.get_max_corr bareSections = .error .value_not_found ∧
     YmlFile.get_max_corr_mean_freq bareSections = .error .value_not_found) ∧
    (∀ i : ℤ,
      YmlFile.get_channel_of_imf bareSections i false = .error .value_not_found ∧
      YmlFile.get_corr_of_imf bareSections i false = .error .value_not_found ∧
      YmlFile.get_mean_freq_of_imf bareSections i false = .error .value_not_found) := by
  refine ⟨⟨rfl, rfl, rfl, rfl, rfl, rfl, rfl, rfl, rfl, rfl, rfl, rfl⟩,
    fun i b => ?_,
    ⟨rfl, rfl, rfl, rfl, rfl, rfl, rfl, rfl, rfl, rfl, rfl, rfl⟩,
    fun i => ?_⟩
  · cases b <;> exact ⟨rfl, rfl, rfl⟩
  · refine ⟨?_, ?_, ?_⟩ <;>
      simp [YmlFile.get_channel_of_imf, YmlFile.get_corr_of_imf,
        YmlFile.get_mean_freq_of_imf, bareSections, pyIndex_nil]

/-! ### Claim C3 — write/read round-trip -/

/-- C3: writing the Parameters section and the Result (correlation) section
through the `YmlFile` writers and reading them back through the accessors
returns exactly the written values: `get_gps` returns the integer pair
encoded in the written gps string, the sampling rate, cutoff, bounce order
and smoothing window come back unchanged, every written correlation entry is
read back field-for-field, and a subsequently written max-correlation
section reads back identically while leaving the parameters intact. -/
theorem spec_c3_roundtrip
    (c0 : YmlContent) (gstr : String) (gs ge : ℤ)
    (hg : YmlFile.parse_gps (.str gstr) = .ok (gs, ge))
    (t cf op : String) (fsv flv : ℚ) (ns sw : ℤ)
    (chs : List String) (crs mfs : List ℚ)
    (hc : chs.length ≤ crs.length) (hm : chs.length ≤ mfs.length)
    (c2 : YmlContent)
    (hw : YmlFile.write_correlation_section
      (YmlFile.write_parameters c0 (.str gstr) t cf op fsv flv ns sw) chs crs mfs = .ok c2)
    (n : ℤ) (mch : String) (mco mmf : ℚ) :
    (YmlFile.get_gps c2 = .ok (gs, ge) ∧
     YmlFile.get_target_channel c2 = .ok t ∧
     YmlFile.get_channels_list c2 = .ok cf ∧
     YmlFile.get_output_path c2 = .ok op ∧
     YmlFile.get_sampling_frequency c2 = .ok fsv ∧
     YmlFile.get_lowpass_frequency c2 = .ok flv ∧
     YmlFile.get_scattering_factor c2 = .ok ns ∧
     YmlFile.get_smoothing_window c2 = .ok sw) ∧
    (∀ i : ℕ, i < chs.length →
      YmlFile.get_channel_of_imf c2 ((i : ℤ) + 1) = .ok (chs.getD i "") ∧
      YmlFile.get_corr_of_imf c2 ((i : ℤ) + 1) = .ok (crs.getD i 0) ∧
      YmlFile.get_mean_freq_of_imf c2 ((i : ℤ) + 1) = .ok (mfs.getD i 0)) ∧
    (YmlFile.get_max_corr_imf (YmlFile.write_max_corr_section c2 n mch mco mmf) = .ok n ∧
     YmlFile.get_max_corr_channel (YmlFile.write_max_corr_section c2 n mch mco mmf) = .ok mch ∧
     YmlFile.get_max_corr (YmlFile.write_max_corr_section c2 n mch mco mmf) = .ok mco ∧
     YmlFile.get_max_corr_mean_freq (YmlFile.write_max_corr_section c2 n mch mco mmf) =
       .ok mmf ∧
     YmlFile.get_gps (YmlFile.write_max_corr_section c2 n mch mco mmf) = .ok (gs, ge)) := by
  unfold YmlFile.write_correlation_section at hw
  rw [build_corr_entries_eq chs crs mfs hc hm] at hw
  obtain rfl : _ = c2 := by injection hw
  refine ⟨⟨?_, rfl, rfl, rfl, rfl, rfl, rfl, rfl⟩, fun i hi => ?_,
    rfl, rfl, rfl, rfl, ?_⟩
  · exact hg
  · have hidx : ((i : ℤ) + 1) - 1 = (i : ℤ) := by ring
    refine ⟨?_, ?_, ?_⟩ <;>
      simp [YmlFile.get_channel_of_imf, YmlFile.get_corr_of_imf,
        YmlFile.get_mean_freq_of_imf, YmlFile.write_parameters, hidx, pyIndex_ofNat,
        List.getElem?_range hi]
  · exact hg

/-! ### Claim C1 — aggregation row policy -/

theorem isOkE_true_iff {ε α : Type} (x : Except ε α) : isOkE x = true ↔ ∃ v, x = .ok v := by
  cases x <;> simp [isOkE]

theorem isOkE_false_iff {ε α : Type} (x : Except ε α) : isOkE x = false ↔ ∃ e, x = .error e := by
  cases x <;> simp [isOkE]

theorem try_cells_atomic (c : YmlContent) (h : max_corr_section_atomic c) (et : String) :
    try_cells c = ([(max_corr_row et c).2.1], [(max_corr_row et c).2.2.1],
      [(max_corr_row et c).2.2.2]) := by
  rcases h with ⟨h1, h2, h3⟩ | ⟨h1, h2, h3⟩
  · obtain ⟨ch, e1⟩ := (isOkE_true_iff _).1 h1
    obtain ⟨co, e2⟩ := (isOkE_true_iff _).1 h2
    obtain ⟨mf, e3⟩ := (isOkE_true_iff _).1 h3
    simp [try_cells, max_corr_row, e1, e2, e3]
  · obtain ⟨a, e1⟩ := (isOkE_false_iff _).1 h1
    obtain ⟨b, e2⟩ := (isOkE_false_iff _).1 h2
    obtain ⟨d, e3⟩ := (isOkE_false_iff _).1 h3
    simp [try_cells, max_corr_row, e1, e2, e3]

theorem valid_has_yml {f : FolderFS} (hv : is_valid_folder f = true) : ∃ c, f.yml = some c := by
  unfold is_valid_folder yml_exists at hv
  cases hy : f.yml with
  | none => rw [hy] at hv; simp at hv
  | some c => exact ⟨c, rfl⟩

theorem max_corr_rows_eq (et : String) (folders : List FolderFS)
    (hrd : ∀ f ∈ folders, folder_readable f) (st : TState) :
    max_corr_rows et folders st = .ok {
      gps := st.gps ++ (((folders.filter is_valid_folder).filterMap (·.yml)).map
        fun c => (max_corr_row et c).1),
      culprits := st.culprits ++ (((folders.filter is_valid_folder).filterMap (·.yml)).map
        fun c => (max_corr_row et c).2.1),
      corrs := st.corrs ++ (((folders.filter is_valid_folder).filterMap (·.yml)).map
        fun c => (max_corr_row et c).2.2.1),
      m_freqs := st.m_freqs ++ (((folders.filter is_valid_folder).filterMap (·.yml)).map
        fun c => (max_corr_row et c).2.2.2) } := by
  induction folders generalizing st with
  | nil => simp [max_corr_rows]
  | cons f rest ih =>
    have hrest : ∀ g ∈ rest, folder_readable g :=
      fun g hg => hrd g (List.mem_cons_of_mem _ hg)
    by_cases hv : is_valid_folder f = true
    · obtain ⟨c, hc⟩ := valid_has_yml hv
      obtain ⟨hgps, hat⟩ := hrd f (List.mem_cons_self f rest) c hc hv
      obtain ⟨g, hgok⟩ := (isOkE_true_iff _).1 hgps
      rw [max_corr_rows, hv]
      simp only [if_true, hc, hgok, try_cells_atomic c hat et]
      rw [ih hrest]
      have hrow : (max_corr_row et c).1 = event_gps et g := by
        simp [max_corr_row, hgok, Except.toOption]
      simp [hv, hc, hrow, List.filter_cons, List.filterMap_cons]
    · rw [max_corr_rows]
      simp only [hv]
      rw [ih hrest]
      simp [List.filter_cons, hv]

/-- C1 counterexample: with selection `max_corr` (the max-correlation token,
called "best" in the specification), three valid folders plus two invalid
ones (missing the `.predictors` sidecar) produce a table of THREE rows, not
five — the invalid folders are silently omitted rather than emitted with
missing-value markers. -/
theorem spec_c1_counterexample :
    (summary_table [goodFolder, goodFolder, goodFolder, badFolder, badFolder]
        .max_corr "summary.csv" "center").map (Option.map fun t =>
          match t with
          | .max_corr_table rows => rows.length
          | .idx_table _ rows => rows.length) = .ok (some 3) ∧ (3 : ℕ) ≠ 5 := by
  exact ⟨rfl, by decide⟩

theorem filter_valid_yml_length (l : List FolderFS) :
    ((l.filter is_valid_folder).filterMap (·.yml)).length = (l.filter is_valid_folder).length := by
  induction l with
  | nil => rfl
  | cons f rest ih =>
    by_cases hv : is_valid_folder f = true
    · obtain ⟨c, hc⟩ := valid_has_yml hv
      simp [List.filter_cons, hv, List.filterMap_cons, hc, ih]
    · simp [List.filter_cons, hv, ih]

/-- C1 amended: `summary_table` with the max-correlation selection emits one
row per VALID folder of the list, in order — folders that fail
`is_valid_folder` (e.g. with a missing sidecar) are silently omitted, so 3
valid plus 2 invalid folders give 3 rows — while a valid folder whose record
lacks the max-correlation section still yields a row carrying the
missing-value markers in the channel, correlation and mean-frequency
columns. -/
theorem spec_c1_amended (folders : List FolderFS) (tn et : String)
    (hne : folders ≠ [])
    (het : et = "start" ∨ et = "center" ∨ et = "end")
    (hrd : ∀ f ∈ folders, folder_readable f) :
    summary_table folders .max_corr tn et =
      .ok (some (.max_corr_table
        (((folders.filter is_valid_folder).filterMap (·.yml)).map (max_corr_row et)))) ∧
    (((folders.filter is_valid_folder).filterMap (·.yml)).map (max_corr_row et)).length =
      (folders.filter is_valid_folder).length ∧
    ∀ c : YmlContent, YmlFile.get_max_corr_channel c = .error .value_not_found →
      (max_corr_row et c).2 = (Cell.nan, Cell.nan, Cell.nan) := by
  refine ⟨?_, by simp [filter_valid_yml_length], fun c hc => by simp [max_corr_row, hc]⟩
  unfold summary_table
  rw [if_neg (by simpa using hne), if_neg (by tauto)]
  have hrows := max_corr_rows_eq et folders hrd {}
  simp only [hrows, Bind.bind, Except.bind]
  unfold make_max_corr_table
  rw [if_pos (by simp)]
  have heta : (fun c => ((max_corr_row et c).1, (max_corr_row et c).2.1,
      (max_corr_row et c).2.2.1, (max_corr_row et c).2.2.2)) = max_corr_row et := by
    funext c
    rfl
  simp [List.zip_map', heta]
  rfl

/-- Witness for the amended C1: one valid folder with a full record, one
valid folder lacking the max-correlation section, and one invalid folder
give exactly two rows — a value row and a missing-marker row. -/
theorem spec_c1_amended_witness :
    summary_table [goodFolder, noSectFolder, badFolder] .max_corr "summary.csv" "center" =
      .ok (some (.max_corr_table [(1005, .s "chB", .q (87/100), .q 2),
        (1005, .nan, .nan, .nan)])) := by
  have h := spec_c1_amended [goodFolder, noSectFolder, badFolder] "summary.csv" "center"
    (List.cons_ne_nil _ _) (Or.inr (Or.inl rfl)) ?_
  · exact h.1
  · intro f hf c hc hv
    simp only [List.mem_cons, List.not_mem_nil, or_false] at hf
    rcases hf with rfl | rfl | rfl
    · simp only [goodFolder, Option.some.injEq] at hc
      subst hc
      exact ⟨by decide, Or.inl ⟨by decide, by decide, by decide⟩⟩
    · simp only [noSectFolder, Option.some.injEq] at hc
      subst hc
      exact ⟨by decide, Or.inr ⟨by decide, by decide, by decide⟩⟩
    · simp only [badFolder, Option.some.injEq] at hc
      subst hc
      exact ⟨by decide, Or.inl ⟨by decide, by decide, by decide⟩⟩

/-- Witness for C3 at concrete values: one written entry, read back intact. -/
theorem spec_c3_roundtrip_witness :
    YmlFile.get_gps rtContent = .ok (1000, 1010) ∧
    YmlFile.get_target_channel rtContent = .ok "T" ∧
    YmlFile.get_sampling_frequency rtContent = .ok 256 ∧
    YmlFile.get_lowpass_frequency rtContent = .ok 4 ∧
    YmlFile.get_scattering_factor rtContent = .ok 1 ∧
    YmlFile.get_smoothing_window rtContent = .ok 50 ∧
    YmlFile.get_channel_of_imf rtContent 1 = .ok "chB" ∧
    YmlFile.get_corr_of_imf rtContent 1 = .ok (87/100) ∧
    YmlFile.get_mean_freq_of_imf rtContent 1 = .ok 2 := by
  have h := spec_c3_roundtrip YmlFile.empty "1000,1010" 1000 1010 rfl
    "T" "CF" "OP" 256 4 1 50 ["chB"] [87/100] [2] (by decide) (by decide)
    rtContent rfl 1 "chB" (87/100) 2
  obtain ⟨hp, hidx, _⟩ := h
  have h0 := hidx 0 (by decide)
  exact ⟨hp.1, hp.2.1, hp.2.2.2.2.1, hp.2.2.2.2.2.1, hp.2.2.2.2.2.2.1, hp.2.2.2.2.2.2.2,
    by simpa using h0.1, by simpa using h0.2.1, by simpa using h0.2.2⟩

/-! ### Engine helper lemmas -/

theorem np_max_spec (l : List ℚ) (h : l ≠ []) :
    np_max l ∈ l ∧ ∀ x ∈ l, x ≤ np_max l := by
  cases hmax : l.maximum with
  | bot => exact absurd hmax (List.maximum_ne_bot_of_ne_nil h)
  | coe m =>
    have hm := List.maximum_eq_coe_iff.1 hmax
    have : np_max l = m := by
      unfold np_max
      rw [hmax]
      rfl
    rw [this]
    exact hm

theorem np_argmax_spec (l : List ℚ) (h : l ≠ []) :
    np_argmax l < l.length ∧ l.getD (np_argmax l) 0 = np_max l ∧
      ∀ j, j < np_argmax l → l.getD j 0 ≠ np_max l := by
  have hmem := (np_max_spec l h).1
  have hex : ∃ x ∈ l, (fun q => decide (q = np_max l)) x := ⟨np_max l, hmem, by simp⟩
  have h1 : np_argmax l < l.length := List.findIdx_lt_length_of_exists hex
  refine ⟨h1, ?_, ?_⟩
  · have := @List.findIdx_getElem _ (fun q => decide (q = np_max l)) l h1
    rw [List.getD_eq_getElem?_getD, List.getElem?_eq_getElem h1]
    simpa [np_argmax] using this
  · intro j hj
    have hjl : j < l.length := lt_trans hj h1
    have := List.not_of_lt_findIdx (p := fun q => decide (q = np_max l)) hj
    rw [List.getD_eq_getElem?_getD, List.getElem?_eq_getElem hjl]
    simpa using this

theorem lock_step_eq (env : Env) (A : Args) (ifo : String) (gs ge : ℤ) (lcn : String)
    (hc : A.check_lock = true)
    (hl : env.get_lock_channel_name_for_ifo ifo = some lcn) :
    lock_check_step env A ifo gs ge =
      ([Effect.fetch_lock_data lcn gs ge],
        if ifo = "L1" then l1_lock_outcome (env.get_instrument_lock_data lcn gs ge) gs ge
        else if ifo = "V1" then v1_lock_outcome (env.get_instrument_lock_data lcn gs ge)
        else .proceed) := by
  simp only [lock_check_step, hc, if_true, hl]
  split_ifs <;> rfl

theorem lock_step_skip (env : Env) (A : Args) (ifo : String) (gs ge : ℤ)
    (h : A.check_lock = false ∨ env.get_lock_channel_name_for_ifo ifo = none) :
    lock_check_step env A ifo gs ge = ([], .proceed) := by
  unfold lock_check_step
  rcases h with h | h
  · simp [h]
  · by_cases hc : A.check_lock <;> simp [hc, h]

theorem l1_proceed_iff (ld : List (List ℚ)) (gs ge : ℤ) :
    l1_lock_outcome ld gs ge = .proceed ↔
      ld.length = 1 ∧ (ld.headD []).head? = some (gs : ℚ) ∧
        (ld.headD []).getLast? = some (ge : ℚ) := by
  by_cases hlen : ld.length = 1
  · simp only [l1_lock_outcome, hlen, ne_eq, not_true_eq_false, if_false]
    cases h1 : (ld.headD []).head? with
    | none => simp [h1]
    | some f =>
      cases h2 : (ld.headD []).getLast? with
      | none => simp [h1, h2]
      | some lst =>
        by_cases hf : f = (gs : ℚ) <;> by_cases hl2 : lst = (ge : ℚ) <;>
          simp [hf, hl2, hlen]
  · simp [l1_lock_outcome, hlen]

theorem v1_proceed_iff (ld : List (List ℚ)) :
    v1_lock_outcome ld = .proceed ↔ ∀ seg ∈ ld, ∀ x ∈ seg, x = 1 := by
  unfold v1_lock_outcome
  by_cases h : (ld.all fun seg => seg.all fun x => decide (x = 1)) = true
  · simp only [h, if_true]
    simp only [List.all_eq_true, decide_eq_true_eq] at h
    simpa using h
  · simp only [List.all_eq_true, decide_eq_true_eq] at h
    rw [if_neg (by simpa using h)]
    simpa using h

theorem l1_never_error_of_nonempty (ld : List (List ℚ)) (gs ge : ℤ)
    (h : ∀ seg ∈ ld, seg ≠ []) :
    l1_lock_outcome ld gs ge = .proceed ∨ l1_lock_outcome ld gs ge = .abort := by
  unfold l1_lock_outcome
  by_cases hlen : ld.length = 1
  · simp only [hlen, ne_eq, not_true_eq_false, if_false]
    cases hld : ld with
    | nil => simp [hld] at hlen
    | cons seg rest =>
      have hseg : seg ≠ [] := h seg (by simp [hld])
      cases hh : seg.head? with
      | none => exact absurd (List.head?_eq_none_iff.1 hh) hseg
      | some f =>
        cases hl2 : seg.getLast? with
        | none =>
          have := List.getLast?_isSome.2 hseg
          rw [hl2] at this
          simp at this
        | some lst =>
          simp only [List.headD_cons, hh, hl2]
          split_ifs <;> simp
  · simp [hlen]

theorem main_eq_checked (env : Env) (A : Args) (hev : A.event ∈ EVENT_LOCATION)
    (hfl : invalid_lowpass_arg A.f_lowpass = false) :
    scattered_light_raw env A = scattered_light_raw_checked env A := by
  unfold scattered_light_raw
  rw [if_neg (by simpa using hev), if_neg (by simp [hfl])]

theorem checked_abort_eq (env : Env) (A : Args)
    (ha : (lock_check_step env A (ifo_of env A) (extremes_of env A).1
      (extremes_of env A).2).2 = .abort) :
    scattered_light_raw_checked env A =
      (.none_result,
        [Effect.open_channels_file A.channels_file, Effect.make_output_dir (out_dir_of A)] ++
          (lock_check_step env A (ifo_of env A) (extremes_of env A).1
            (extremes_of env A).2).1) := by
  simp only [scattered_light_raw_checked]
  rw [ha]

theorem checked_proceed_eq (env : Env) (A : Args)
    (hp : (lock_check_step env A (ifo_of env A) (extremes_of env A).1
      (extremes_of env A).2).2 = .proceed) :
    scattered_light_raw_checked env A =
      scattered_light_raw_loaded env A
        ([Effect.open_channels_file A.channels_file, Effect.make_output_dir (out_dir_of A)] ++
          (lock_check_step env A (ifo_of env A) (extremes_of env A).1
            (extremes_of env A).2).1) := by
  simp only [scattered_light_raw_checked]
  rw [hp]

theorem loaded_eq_of_reach (env : Env) (A : Args) (effs : List Effect) (f_low : ℚ)
    (hne : (data_of env A).1.isEmpty = false)
    (hres : f_lowpass_resolved_of env A = .ok (.num f_low))
    (hcne : (corrs_of env A f_low).isEmpty = false)
    (hlen : np_argmax (corrs_of env A f_low) < (channels_list_of env A).length) :
    scattered_light_raw_loaded env A effs =
      (.type_error,
        effs ++ [Effect.fetch_channels A.target_channel_name (channels_list_of env A)
            (extremes_of env A).1 (extremes_of env A).2 A.fs] ++
          [Effect.lowpass_call f_low (data_of env A).2] ++
          [Effect.mean_freq_call
            ((channels_list_of env A).getD (np_argmax (corrs_of env A f_low)) "")
            (extremes_of env A).1 (extremes_of env A).2 (3/100) 10]) := by
  simp only [scattered_light_raw_loaded]
  rw [hres, hne]
  simp only [Bool.false_eq_true, if_false]
  rw [hcne]
  simp only [Bool.false_eq_true, if_false]
  rw [if_neg (not_le.2 hlen)]
  rfl

theorem loaded_result_shape (env : Env) (A : Args) (effs : List Effect) :
    (scattered_light_raw_loaded env A effs).1 = .type_error ∨
      ∃ m, (scattered_light_raw_loaded env A effs).1 = .runtime_error m := by
  simp only [scattered_light_raw_loaded]
  repeat' split
  all_goals simp_all [call_write_parameters]

theorem lock_step_no_write (env : Env) (A : Args) (ifo : String) (gs ge : ℤ) (d : String)
    (c : YmlContent) : Effect.write_record d c ∉ (lock_check_step env A ifo gs ge).1 := by
  unfold lock_check_step
  repeat' split
  all_goals simp

theorem loaded_no_write_effect (env : Env) (A : Args) (effs : List Effect)
    (h : ∀ d c, Effect.write_record d c ∉ effs) :
    ∀ d c, Effect.write_record d c ∉ (scattered_light_raw_loaded env A effs).2 := by
  intro d c
  simp only [scattered_light_raw_loaded]
  repeat' split
  all_goals simp_all [call_write_parameters, List.mem_append, h d c]

/-! ### Claim C2 — the Parameters section is never written (code bug) -/

/-- C2 (refuting the lifecycle claim; code bug): no run of
`scattered_light_raw` ever completes or persists a record.  At line 122 the
engine passes ten positional arguments (`gps, seconds, event,
target_channel_name, channels_file, out_path, fs, f_lowpass, n_scattering,
smooth_win`) to `YmlFile.write_parameters`, which accepts eight
(file_utils.py line 293), so every run that reaches the output stage dies
with a TypeError: concretely, a run that passed validation and the lock
check, fetched its data and completed the scorer (the mean-frequency call
for the winning channel is in its trace) still ends in `type_error`, and no
`write_record` effect ever occurs. -/
theorem spec_c2_parameters_never_written :
    (∀ (env : Env) (A : Args),
      (∀ c, (scattered_light_raw env A).1 ≠ .completed c) ∧
      (∀ d c, Effect.write_record d c ∉ (scattered_light_raw env A).2)) ∧
    (scattered_light_raw testEnv testArgs).1 = .type_error ∧
    Effect.mean_freq_call "chB" 90 100 (3/100) 10 ∈ (scattered_light_raw testEnv testArgs).2 ∧
    Effect.fetch_channels "L1:TEST" ["chA", "chB"] 90 100 256 ∈
      (scattered_light_raw testEnv testArgs).2 := by
  have hrun : scattered_light_raw testEnv testArgs =
      (.type_error,
        [Effect.open_channels_file "chlist.txt", Effect.make_output_dir "out/100",
          Effect.fetch_channels "L1:TEST" ["chA", "chB"] 90 100 256,
          Effect.lowpass_call 4 256,
          Effect.mean_freq_call "chB" 90 100 (3/100) 10]) := by
    rw [main_eq_checked testEnv testArgs (by decide) rfl,
      checked_proceed_eq testEnv testArgs rfl,
      loaded_eq_of_reach testEnv testArgs _ 4 rfl rfl rfl (by decide)]
    rfl
  refine ⟨fun env A => ?_, by rw [hrun], by rw [hrun]; simp, by rw [hrun]; simp⟩
  unfold scattered_light_raw
  split
  · exact ⟨fun c => by simp, fun d c => by simp⟩
  · split
    · exact ⟨fun c => by simp, fun d c => by simp⟩
    · simp only [scattered_light_raw_checked]
      split
      · exact ⟨fun c => by simp, fun d c => by
          simp [List.mem_append, lock_step_no_write]⟩
      · exact ⟨fun c => by simp, fun d c => by
          simp [List.mem_append, lock_step_no_write]⟩
      · constructor
        · intro c hc
          rcases loaded_result_shape env A ([Effect.open_channels_file A.channels_file,
              Effect.make_output_dir (out_dir_of A)] ++
              (lock_check_step env A (ifo_of env A) (extremes_of env A).1
                (extremes_of env A).2).1) with h' | ⟨m, h'⟩ <;> rw [h'] at hc <;> exact
            absurd hc (by simp)
        · refine loaded_no_write_effect env A _ fun d c => ?_
          simp [List.mem_append, lock_step_no_write]

theorem loaded_has_fetch (env : Env) (A : Args) (effs : List Effect) :
    Effect.fetch_channels A.target_channel_name (channels_list_of env A)
      (extremes_of env A).1 (extremes_of env A).2 A.fs ∈
      (scattered_light_raw_loaded env A effs).2 := by
  simp only [scattered_light_raw_loaded]
  repeat' split
  all_goals simp [List.mem_append]

theorem lock_step_filter_mean (env : Env) (A : Args) (ifo : String) (gs ge : ℤ) :
    (lock_check_step env A ifo gs ge).1.filter Effect.is_mean_freq_call = [] := by
  unfold lock_check_step
  repeat' split
  all_goals simp [Effect.is_mean_freq_call]

theorem lock_step_no_fetch_channels (env : Env) (A : Args) (ifo : String) (gs ge : ℤ) :
    ∀ e ∈ (lock_check_step env A ifo gs ge).1, Effect.is_fetch_channels e = false := by
  unfold lock_check_step
  repeat' split
  all_goals simp [Effect.is_fetch_channels]

/-! ### Claim C9 — immediate argument validation -/

/-- C9: `scattered_light_raw` raises its ValueError before any side effect
(the trace is empty) whenever the event-position argument is outside
{start, center, end}, and whenever the cutoff is a string outside
{average, max} (numeric cutoffs always pass); conversely, with valid
arguments the run never produces an invalid-argument error. -/
theorem spec_c9_invalid_arguments :
    (∀ (env : Env) (A : Args), A.event ∉ EVENT_LOCATION →
      scattered_light_raw env A =
        (.invalid_argument "Event time can only be: start, center, end", [])) ∧
    (∀ (env : Env) (A : Args) (s : String), A.event ∈ EVENT_LOCATION →
      A.f_lowpass = .str s → s ∉ LOWP_FREQ_OPTS →
      scattered_light_raw env A =
        (.invalid_argument "Lowpass frequency must be a float or one of these strings", [])) ∧
    (∀ (env : Env) (A : Args), A.event ∈ EVENT_LOCATION →
      invalid_lowpass_arg A.f_lowpass = false →
      ∀ m, (scattered_light_raw env A).1 ≠ .invalid_argument m) := by
  refine ⟨fun env A h => ?_, fun env A s hev hfs hs => ?_, fun env A hev hfl m => ?_⟩
  · unfold scattered_light_raw
    rw [if_pos h]
  · unfold scattered_light_raw
    rw [if_neg (by simpa using hev), if_pos (by simp [invalid_lowpass_arg, hfs, hs])]
  · rw [main_eq_checked env A hev hfl]
    simp only [scattered_light_raw_checked]
    split
    · simp
    · simp
    · rcases loaded_result_shape env A (Effect.open_channels_file A.channels_file ::
          Effect.make_output_dir (out_dir_of A) ::
          (lock_check_step env A (ifo_of env A) (extremes_of env A).1
            (extremes_of env A).2).1) with h' | ⟨m2, h'⟩ <;> simp [h']

/-- Witness for C9: a bad event string and a bad cutoff string each raise at
once with an empty trace; the valid arguments of the concrete run never
yield an invalid-argument result. -/
theorem spec_c9_invalid_arguments_witness :
    scattered_light_raw testEnv { testArgs with event := "middle" } =
      (.invalid_argument "Event time can only be: start, center, end", []) ∧
    scattered_light_raw testEnv { testArgs with f_lowpass := .str "avg" } =
      (.invalid_argument "Lowpass frequency must be a float or one of these strings", []) ∧
    ∀ m, (scattered_light_raw testEnv testArgs).1 ≠ .invalid_argument m :=
  ⟨spec_c9_invalid_arguments.1 testEnv _ (by decide),
    spec_c9_invalid_arguments.2.1 testEnv _ "avg" (by decide) rfl (by decide),
    spec_c9_invalid_arguments.2.2 testEnv testArgs (by decide) rfl⟩

/-! ### Claim C4 — scorer selection, tie-break, winner-only mean frequency -/

/-- C4: the correlation scorer is the argmax of the per-channel correlation
list — a pure function of its inputs, so repeated runs agree — and it selects
the first index attaining the maximum (ties broken by channel-list order):
the selected entry equals the maximum, every entry is bounded by it, and
every earlier entry is strictly below it.  Moreover, inside a run that
reaches the scorer, the mean-frequency statistic is computed exactly once —
only for the winning channel — over the resolved window with the fixed
bandpass limits (0.03, 10). -/
theorem spec_c4_scorer_selection :
    (∀ l : List ℚ, l ≠ [] →
      np_argmax l < l.length ∧
      l.getD (np_argmax l) 0 = np_max l ∧
      (∀ x ∈ l, x ≤ np_max l) ∧
      (∀ j, j < np_argmax l → l.getD j 0 ≠ np_max l)) ∧
    (∀ (env : Env) (A : Args) (f_low : ℚ),
      A.event ∈ EVENT_LOCATION →
      invalid_lowpass_arg A.f_lowpass = false →
      (lock_check_step env A (ifo_of env A) (extremes_of env A).1
        (extremes_of env A).2).2 = .proceed →
      (data_of env A).1.isEmpty = false →
      f_lowpass_resolved_of env A = .ok (.num f_low) →
      (corrs_of env A f_low).isEmpty = false →
      np_argmax (corrs_of env A f_low) < (channels_list_of env A).length →
      (scattered_light_raw env A).2.filter Effect.is_mean_freq_call =
        [Effect.mean_freq_call
          ((channels_list_of env A).getD (np_argmax (corrs_of env A f_low)) "")
          (extremes_of env A).1 (extremes_of env A).2 (3/100) 10]) := by
  refine ⟨fun l h => ?_, fun env A f_low hev hfl hlk hne hres hcne hlen => ?_⟩
  · obtain ⟨h1, h2, h3⟩ := np_argmax_spec l h
    exact ⟨h1, h2, (np_max_spec l h).2, h3⟩
  · rw [main_eq_checked env A hev hfl, checked_proceed_eq env A hlk,
      loaded_eq_of_reach env A _ f_low hne hres hcne hlen]
    simp [List.filter_append, lock_step_filter_mean, Effect.is_mean_freq_call]

/-- Witness for C4: on the correlation list [3, 5, 5] the scorer picks index
1, the first of the two tied maxima; the concrete run computes the mean
frequency once, for channel chB, over window (90, 100) with limits
(0.03, 10). -/
theorem spec_c4_scorer_selection_witness :
    (np_argmax [(3 : ℚ), 5, 5] < 3 ∧
      [(3 : ℚ), 5, 5].getD (np_argmax [(3 : ℚ), 5, 5]) 0 = np_max [(3 : ℚ), 5, 5] ∧
      (∀ x ∈ [(3 : ℚ), 5, 5], x ≤ np_max [(3 : ℚ), 5, 5]) ∧
      ∀ j, j < np_argmax [(3 : ℚ), 5, 5] →
        [(3 : ℚ), 5, 5].getD j 0 ≠ np_max [(3 : ℚ), 5, 5]) ∧
    (scattered_light_raw testEnv testArgs).2.filter Effect.is_mean_freq_call =
      [Effect.mean_freq_call "chB" 90 100 (3/100) 10] := by
  constructor
  · exact spec_c4_scorer_selection.1 [3, 5, 5] (by decide)
  · exact spec_c4_scorer_selection.2 testEnv testArgs 4 (by decide) rfl rfl rfl rfl rfl
      (by decide)

/-! ### Claim C5 — symbolic cutoff resolution -/

/-- C5: on a nonempty predictor matrix the symbolic cutoff "average"
resolves to the maximum over candidate channels of the mean of that
channel's predictor, and "max" to the maximum of the per-channel maxima (the
predictor means 1, 2, 3 resolve to 3); inside a run, the resolved numeric
value is the one passed to the lowpass filter of the target. -/
theorem spec_c5_cutoff_resolution :
    (∀ predictor : List (List ℚ), predictor ≠ [] →
      resolve_f_lowpass (.str "average") predictor =
        .ok (.num (np_max (predictor.map np_mean))) ∧
      ((∀ p ∈ predictor, p ≠ []) →
        resolve_f_lowpass (.str "max") predictor =
          .ok (.num (np_max (predictor.map np_max))))) ∧
    np_max ([[(1 : ℚ)], [2], [3]].map np_mean) = 3 ∧
    (∀ (env : Env) (A : Args) (f_low : ℚ),
      A.event ∈ EVENT_LOCATION →
      invalid_lowpass_arg A.f_lowpass = false →
      (lock_check_step env A (ifo_of env A) (extremes_of env A).1
        (extremes_of env A).2).2 = .proceed →
      (data_of env A).1.isEmpty = false →
      f_lowpass_resolved_of env A = .ok (.num f_low) →
      (corrs_of env A f_low).isEmpty = false →
      np_argmax (corrs_of env A f_low) < (channels_list_of env A).length →
      Effect.lowpass_call f_low (data_of env A).2 ∈ (scattered_light_raw env A).2) := by
  refine ⟨fun predictor hne => ⟨?_, fun hall => ?_⟩, ?_,
    fun env A f_low hev hfl hlk hne hres hcne hlen => ?_⟩
  · simp [resolve_f_lowpass, List.isEmpty_iff, hne]
  · have h2 : (predictor.any fun p => p.isEmpty) = false := by
      rw [List.any_eq_false]
      intro p hp
      simp [List.isEmpty_iff]
      exact hall p hp
    simp [resolve_f_lowpass, List.isEmpty_iff, hne, h2]
  · have hmeans : ([[(1 : ℚ)], [2], [3]].map np_mean) = [1, 2, 3] := by
      norm_num [np_mean]
    rw [hmeans]
    decide
  · rw [main_eq_checked env A hev hfl, checked_proceed_eq env A hlk,
      loaded_eq_of_reach env A _ f_low hne hres hcne hlen]
    simp

/-- Witness for C5: the "average" resolution instantiated on a concrete
3-channel predictor matrix, and a concrete "max"-policy run whose filter is
called with the resolved value 6 (the largest per-channel maximum of the
predictors [3, 4] and [5, 6]) at the resolved sampling rate. -/
theorem spec_c5_cutoff_resolution_witness :
    (resolve_f_lowpass (.str "average") [[(1 : ℚ)], [2], [3]] =
      .ok (.num (np_max ([[(1 : ℚ)], [2], [3]].map np_mean))) ∧
     resolve_f_lowpass (.str "max") [[(1 : ℚ)], [2], [3]] =
      .ok (.num (np_max ([[(1 : ℚ)], [2], [3]].map np_max)))) ∧
    Effect.lowpass_call 6 256 ∈
      (scattered_light_raw testEnv { testArgs with f_lowpass := .str "max" }).2 := by
  refine ⟨⟨(spec_c5_cutoff_resolution.1 [[(1 : ℚ)], [2], [3]] (by decide)).1,
    (spec_c5_cutoff_resolution.1 [[(1 : ℚ)], [2], [3]] (by decide)).2 ?_⟩, ?_⟩
  · intro p hp
    fin_cases hp <;> decide
  · exact spec_c5_cutoff_resolution.2.2 testEnv { testArgs with f_lowpass := .str "max" } 6
      (by decide) rfl rfl rfl rfl rfl (by decide)

/-! ### Claim C6 — lock policy A (L1) -/

/-- C6: with the lock check enabled on an L1 target, the analysis loads
channel data iff the fetched lock-state series has exactly one segment whose
first and last samples equal the resolved window's start and end; on any
extra segment or endpoint mismatch (with well-formed, nonempty segments) the
run stops before any data loading and returns the no-result sentinel, its
whole trace being the channel-list read, the output-folder creation and the
lock fetch. -/
theorem spec_c6_lock_policy_L1 (env : Env) (A : Args) (lcn : String)
    (hev : A.event ∈ EVENT_LOCATION)
    (hfl : invalid_lowpass_arg A.f_lowpass = false)
    (hcl : A.check_lock = true)
    (hifo : ifo_of env A = "L1")
    (hlcn : env.get_lock_channel_name_for_ifo "L1" = some lcn) :
    ((∃ e ∈ (scattered_light_raw env A).2, Effect.is_fetch_channels e = true) ↔
      ((env.get_instrument_lock_data lcn (extremes_of env A).1
          (extremes_of env A).2).length = 1 ∧
        ((env.get_instrument_lock_data lcn (extremes_of env A).1
          (extremes_of env A).2).headD []).head? = some ((extremes_of env A).1 : ℚ) ∧
        ((env.get_instrument_lock_data lcn (extremes_of env A).1
          (extremes_of env A).2).headD []).getLast? = some ((extremes_of env A).2 : ℚ))) ∧
    (¬((env.get_instrument_lock_data lcn (extremes_of env A).1
          (extremes_of env A).2).length = 1 ∧
        ((env.get_instrument_lock_data lcn (extremes_of env A).1
          (extremes_of env A).2).headD []).head? = some ((extremes_of env A).1 : ℚ) ∧
        ((env.get_instrument_lock_data lcn (extremes_of env A).1
          (extremes_of env A).2).headD []).getLast? = some ((extremes_of env A).2 : ℚ)) →
      (∀ seg ∈ env.get_instrument_lock_data lcn (extremes_of env A).1
        (extremes_of env A).2, seg ≠ []) →
      scattered_light_raw env A =
        (.none_result,
          [Effect.open_channels_file A.channels_file, Effect.make_output_dir (out_dir_of A),
            Effect.fetch_lock_data lcn (extremes_of env A).1 (extremes_of env A).2])) := by
  have hstep : lock_check_step env A (ifo_of env A) (extremes_of env A).1
      (extremes_of env A).2 =
      ([Effect.fetch_lock_data lcn (extremes_of env A).1 (extremes_of env A).2],
        l1_lock_outcome
          (env.get_instrument_lock_data lcn (extremes_of env A).1 (extremes_of env A).2)
          (extremes_of env A).1 (extremes_of env A).2) := by
    rw [hifo, lock_step_eq env A "L1" _ _ lcn hcl hlcn]
    simp
  rw [main_eq_checked env A hev hfl]
  constructor
  · constructor
    · rintro ⟨e, he, hfe⟩
      by_contra hcond
      have hout : l1_lock_outcome
          (env.get_instrument_lock_data lcn (extremes_of env A).1 (extremes_of env A).2)
          (extremes_of env A).1 (extremes_of env A).2 ≠ .proceed :=
        fun hp => hcond ((l1_proceed_iff _ _ _).1 hp)
      simp only [scattered_light_raw_checked, hstep] at he
      rcases hv : l1_lock_outcome
          (env.get_instrument_lock_data lcn (extremes_of env A).1 (extremes_of env A).2)
          (extremes_of env A).1 (extremes_of env A).2 with _ | _ | m
      · exact hout hv
      · rw [hv] at he
        simp at he
        rcases he with rfl | rfl | rfl <;> simp [Effect.is_fetch_channels] at hfe
      · rw [hv] at he
        simp at he
        rcases he with rfl | rfl | rfl <;> simp [Effect.is_fetch_channels] at hfe
    · intro hcond
      have hp := (l1_proceed_iff _ _ _).2 hcond
      rw [checked_proceed_eq env A (by rw [hstep]; exact hp)]
      exact ⟨Effect.fetch_channels A.target_channel_name (channels_list_of env A)
        (extremes_of env A).1 (extremes_of env A).2 A.fs, loaded_has_fetch env A _, rfl⟩
  · intro hcond hsegs
    have habort : l1_lock_outcome
        (env.get_instrument_lock_data lcn (extremes_of env A).1 (extremes_of env A).2)
        (extremes_of env A).1 (extremes_of env A).2 = .abort := by
      rcases l1_never_error_of_nonempty _ (extremes_of env A).1 (extremes_of env A).2 hsegs
        with h | h
      · exact absurd ((l1_proceed_iff _ _ _).1 h) hcond
      · exact h
    rw [checked_abort_eq env A (by rw [hstep]; exact habort)]
    rw [hstep]
    rfl

/-- Witness for C6: with one segment spanning exactly (90, 100) the run
loads data; with two segments it returns the no-result sentinel right after
the lock fetch. -/
theorem spec_c6_lock_policy_L1_witness :
    (∃ e ∈ (scattered_light_raw testEnv { testArgs with check_lock := true }).2,
      Effect.is_fetch_channels e = true) ∧
    scattered_light_raw
        { testEnv with get_instrument_lock_data := fun _ _ _ => [[90, 95], [95, 100]] }
        { testArgs with check_lock := true } =
      (.none_result, [Effect.open_channels_file "chlist.txt",
        Effect.make_output_dir "out/100", Effect.fetch_lock_data "LCK:L1" 90 100]) := by
  constructor
  · exact ((spec_c6_lock_policy_L1 testEnv { testArgs with check_lock := true } "LCK:L1"
      (by decide) rfl rfl rfl rfl).1).mpr (by decide)
  · exact (spec_c6_lock_policy_L1
      { testEnv with get_instrument_lock_data := fun _ _ _ => [[90, 95], [95, 100]] }
      { testArgs with check_lock := true } "LCK:L1"
      (by decide) rfl rfl rfl rfl).2 (by decide) (by decide)

/-! ### Claim C7 — lock policy B (V1) -/

theorem v1_never_error (ld : List (List ℚ)) :
    v1_lock_outcome ld = .proceed ∨ v1_lock_outcome ld = .abort := by
  unfold v1_lock_outcome
  split_ifs <;> simp

/-- C7: with the lock check enabled on a V1 target, the analysis proceeds to
data loading iff every sample of the fetched lock-state series equals the
"locked" flag value 1; otherwise the whole run short-circuits with the
no-result sentinel (not an error), its trace ending at the lock fetch. -/
theorem spec_c7_lock_policy_V1 (env : Env) (A : Args) (lcn : String)
    (hev : A.event ∈ EVENT_LOCATION)
    (hfl : invalid_lowpass_arg A.f_lowpass = false)
    (hcl : A.check_lock = true)
    (hifo : ifo_of env A = "V1")
    (hlcn : env.get_lock_channel_name_for_ifo "V1" = some lcn) :
    ((∃ e ∈ (scattered_light_raw env A).2, Effect.is_fetch_channels e = true) ↔
      ∀ seg ∈ env.get_instrument_lock_data lcn (extremes_of env A).1
        (extremes_of env A).2, ∀ x ∈ seg, x = 1) ∧
    (¬(∀ seg ∈ env.get_instrument_lock_data lcn (extremes_of env A).1
        (extremes_of env A).2, ∀ x ∈ seg, x = 1) →
      scattered_light_raw env A =
        (.none_result,
          [Effect.open_channels_file A.channels_file, Effect.make_output_dir (out_dir_of A),
            Effect.fetch_lock_data lcn (extremes_of env A).1 (extremes_of env A).2])) := by
  have hstep : lock_check_step env A (ifo_of env A) (extremes_of env A).1
      (extremes_of env A).2 =
      ([Effect.fetch_lock_data lcn (extremes_of env A).1 (extremes_of env A).2],
        v1_lock_outcome
          (env.get_instrument_lock_data lcn (extremes_of env A).1 (extremes_of env A).2)) := by
    rw [hifo, lock_step_eq env A "V1" _ _ lcn hcl hlcn]
    simp
  rw [main_eq_checked env A hev hfl]
  constructor
  · constructor
    · rintro ⟨e, he, hfe⟩
      by_contra hcond
      have habort : v1_lock_outcome
          (env.get_instrument_lock_data lcn (extremes_of env A).1 (extremes_of env A).2) =
          .abort := by
        rcases v1_never_error (env.get_instrument_lock_data lcn (extremes_of env A).1
          (extremes_of env A).2) with h | h
        · exact absurd ((v1_proceed_iff _).1 h) hcond
        · exact h
      simp only [scattered_light_raw_checked, hstep] at he
      rw [habort] at he
      simp at he
      rcases he with rfl | rfl | rfl <;> simp [Effect.is_fetch_channels] at hfe
    · intro hcond
      have hp := (v1_proceed_iff _).2 hcond
      rw [checked_proceed_eq env A (by rw [hstep]; exact hp)]
      exact ⟨Effect.fetch_channels A.target_channel_name (channels_list_of env A)
        (extremes_of env A).1 (extremes_of env A).2 A.fs, loaded_has_fetch env A _, rfl⟩
  · intro hcond
    have habort : v1_lock_outcome
        (env.get_instrument_lock_data lcn (extremes_of env A).1 (extremes_of env A).2) =
        .abort := by
      rcases v1_never_error (env.get_instrument_lock_data lcn (extremes_of env A).1
        (extremes_of env A).2) with h | h
      · exact absurd ((v1_proceed_iff _).1 h) hcond
      · exact h
    rw [checked_abort_eq env A (by rw [hstep]; exact habort)]
    rw [hstep]
    rfl

/-- Witness for C7: an all-ones lock series proceeds to data loading; a
series with one zero sample returns the no-result sentinel right after the
lock fetch. -/
theorem spec_c7_lock_policy_V1_witness :
    (∃ e ∈ (scattered_light_raw
        { testEnv with get_instrument_lock_data := fun _ _ _ => [[1, 1, 1]] }
        { testArgs with target_channel_name := "V1:TEST", check_lock := true }).2,
      Effect.is_fetch_channels e = true) ∧
    scattered_light_raw
        { testEnv with get_instrument_lock_data := fun _ _ _ => [[1, 1, 0]] }
        { testArgs with target_channel_name := "V1:TEST", check_lock := true } =
      (.none_result, [Effect.open_channels_file "chlist.txt",
        Effect.make_output_dir "out/100", Effect.fetch_lock_data "LCK:V1" 90 100]) := by
  constructor
  · exact ((spec_c7_lock_policy_V1
      { testEnv with get_instrument_lock_data := fun _ _ _ => [[1, 1, 1]] }
      { testArgs with target_channel_name := "V1:TEST", check_lock := true } "LCK:V1"
      (by decide) rfl rfl rfl rfl).1).mpr (by decide)
  · exact (spec_c7_lock_policy_V1
      { testEnv with get_instrument_lock_data := fun _ _ _ => [[1, 1, 0]] }
      { testArgs with target_channel_name := "V1:TEST", check_lock := true } "LCK:V1"
      (by decide) rfl rfl rfl rfl).2 (by decide)

/-! ### Claim C10 — lock data fetched but ignored for unknown instruments -/

theorem loaded_keeps_effs (env : Env) (A : Args) (effs : List Effect) (e : Effect)
    (he : e ∈ effs) : e ∈ (scattered_light_raw_loaded env A effs).2 := by
  simp only [scattered_light_raw_loaded]
  repeat' split
  all_goals simp [List.mem_append, he]

/-- C10: with the lock check enabled, a lock channel available, and an
instrument identifier that is neither L1 nor V1, the lock data is fetched
(the fetch effect is in the trace) and then ignored: the run proceeds to
data loading unconditionally, and its entire result is unchanged under any
replacement of the lock-data provider. -/
theorem spec_c10_unknown_ifo_lock_ignored (env : Env) (A : Args) (lcn : String)
    (hev : A.event ∈ EVENT_LOCATION)
    (hfl : invalid_lowpass_arg A.f_lowpass = false)
    (hcl : A.check_lock = true)
    (h1 : ifo_of env A ≠ "L1")
    (h2 : ifo_of env A ≠ "V1")
    (hlcn : env.get_lock_channel_name_for_ifo (ifo_of env A) = some lcn) :
    Effect.fetch_lock_data lcn (extremes_of env A).1 (extremes_of env A).2 ∈
      (scattered_light_raw env A).2 ∧
    (∃ e ∈ (scattered_light_raw env A).2, Effect.is_fetch_channels e = true) ∧
    ∀ f : String → ℤ → ℤ → List (List ℚ),
      scattered_light_raw { env with get_instrument_lock_data := f } A =
        scattered_light_raw env A := by
  have hstep : lock_check_step env A (ifo_of env A) (extremes_of env A).1
      (extremes_of env A).2 =
      ([Effect.fetch_lock_data lcn (extremes_of env A).1 (extremes_of env A).2],
        .proceed) := by
    rw [lock_step_eq env A (ifo_of env A) _ _ lcn hcl hlcn]
    rw [if_neg h1, if_neg h2]
  have hrun : scattered_light_raw env A =
      scattered_light_raw_loaded env A
        ([Effect.open_channels_file A.channels_file, Effect.make_output_dir (out_dir_of A)] ++
          [Effect.fetch_lock_data lcn (extremes_of env A).1 (extremes_of env A).2]) := by
    rw [main_eq_checked env A hev hfl, checked_proceed_eq env A (by rw [hstep])]
    rw [hstep]
  refine ⟨?_, ?_, ?_⟩
  · rw [hrun]
    exact loaded_keeps_effs env A _ _ (by simp)
  · rw [hrun]
    exact ⟨Effect.fetch_channels A.target_channel_name (channels_list_of env A)
      (extremes_of env A).1 (extremes_of env A).2 A.fs, loaded_has_fetch env A _, rfl⟩
  · intro f
    have hstep' : lock_check_step { env with get_instrument_lock_data := f } A
        (ifo_of { env with get_instrument_lock_data := f } A)
        (extremes_of { env with get_instrument_lock_data := f } A).1
        (extremes_of { env with get_instrument_lock_data := f } A).2 =
        ([Effect.fetch_lock_data lcn
            (extremes_of { env with get_instrument_lock_data := f } A).1
            (extremes_of { env with get_instrument_lock_data := f } A).2],
          .proceed) := by
      rw [lock_step_eq { env with get_instrument_lock_data := f } A
        (ifo_of { env with get_instrument_lock_data := f } A)
        (extremes_of { env with get_instrument_lock_data := f } A).1
        (extremes_of { env with get_instrument_lock_data := f } A).2 lcn hcl hlcn]
      have h1f : ifo_of { env with get_instrument_lock_data := f } A ≠ "L1" := h1
      have h2f : ifo_of { env with get_instrument_lock_data := f } A ≠ "V1" := h2
      rw [if_neg h1f, if_neg h2f]
    rw [main_eq_checked { env with get_instrument_lock_data := f } A hev hfl,
      checked_proceed_eq { env with get_instrument_lock_data := f } A (by rw [hstep']),
      hstep', hrun]
    rfl

/-- Witness for C10: an H1 target with the lock check enabled fetches the
lock data, still loads channel data, and the whole run does not depend on
what the lock-data provider returns. -/
theorem spec_c10_unknown_ifo_lock_ignored_witness :
    Effect.fetch_lock_data "LCK:H1" 90 100 ∈
      (scattered_light_raw testEnv
        { testArgs with target_channel_name := "H1:TEST", check_lock := true }).2 ∧
    (∃ e ∈ (scattered_light_raw testEnv
        { testArgs with target_channel_name := "H1:TEST", check_lock := true }).2,
      Effect.is_fetch_channels e = true) ∧
    ∀ f : String → ℤ → ℤ → List (List ℚ),
      scattered_light_raw { testEnv with get_instrument_lock_data := f }
          { testArgs with target_channel_name := "H1:TEST", check_lock := true } =
        scattered_light_raw testEnv
          { testArgs with target_channel_name := "H1:TEST", check_lock := true } :=
  spec_c10_unknown_ifo_lock_ignored testEnv
    { testArgs with target_channel_name := "H1:TEST", check_lock := true } "LCK:H1"
    (by decide) rfl rfl (by decide) (by decide) rfl
